import Mathlib

/-!
# Album store: embedding of `main.go`

The program is a data-access layer over one table, `album`, reached through
Go's `database/sql`. Each of its six operations issues a single statement on
the process-wide handle `db` and turns the answer into a value and an error.

The embedding has three layers.

* The values of the program: `Album`, error values, bound parameters.
* The library boundary `Env`: what `db.Query`, `db.QueryRow`, `db.Exec` and
  the `%q` verb of `fmt` answer. The six operations are written against an
  arbitrary `Env`, so a theorem about them holds for every behaviour of the
  database and the driver, failures included.
* A reference table, `Table`, with the meaning of the six statements on a
  list of rows. It is used for the properties that speak about the content
  of the table.
-/

namespace AlbumStore

/-! ## Values -/

/-- A Go `float32`, identified by its IEEE-754 bit pattern. The program never
computes with a price, it only moves it between the caller and the database. -/
structure Float32 where
  bits : Nat
  deriving DecidableEq, Repr

/-- The record type `Album` of `main.go`; `ID` is an `int64`. -/
structure Album where
  ID : Int
  Title : String
  Artist : String
  Price : Float32
  deriving DecidableEq, Repr

/-- A Go `error` value that is not nil. `ErrNoRows` is the sentinel
`sql.ErrNoRows`, compared by identity in the source; every other error value
is known by the text its `Error()` method returns. An error value built by
`fmt.Errorf` with the verb `%v` has no type of its own and wraps nothing, so a
caller can tell two of them apart only by that text. -/
inductive GoError where
  | ErrNoRows
  | other (msg : String)
  deriving DecidableEq, Repr

/-- The method `Error()`. -/
def GoError.Error : GoError → String
  | .ErrNoRows => "sql: no rows in result set"
  | .other msg => msg

/-- The value `fmt.Errorf` returns for an already formatted message. -/
def Errorf (msg : String) : GoError := .other msg

/-- The verb `%d` applied to an `int64`. -/
def fmtD (n : Int) : String := toString n

/-- A value bound to a `?` placeholder of a statement. -/
inductive Value where
  | int (i : Int)
  | str (s : String)
  | float (f : Float32)
  deriving DecidableEq, Repr

/-- The four destinations of a `Scan` call of the program, in the order in
which they are passed; `Scan` fills them from the columns of the current row
by position. -/
structure Columns where
  c0 : Int
  c1 : String
  c2 : String
  c3 : Float32
  deriving DecidableEq, Repr

/-- The zero values of the four destinations. -/
def Columns.zero : Columns := ⟨0, "", "", ⟨0⟩⟩

/-- `Scan(&alb.ID, &alb.Title, &alb.Artist, &alb.Price)` on a fresh `alb`. -/
def scanInto (c : Columns) : Album :=
  { ID := c.c0, Title := c.c1, Artist := c.c2, Price := c.c3 }

/-- The outcome of one `Scan` call: either every destination is filled, or an
error is returned and the destinations hold whatever the call left in them. -/
inductive ScanResult where
  | ok (c : Columns)
  | fail (err : GoError) (left : Columns)
  deriving DecidableEq, Repr

/-- A result set as the loop `for rows.Next()` sees it: one `Scan` outcome for
each time `Next` returns true, and the value of `rows.Err()` once `Next` has
returned false. The deferred `rows.Close()` releases the result set on every
path and does not change what the operations return. -/
structure Rows where
  scans : List ScanResult
  err : Option GoError
  deriving DecidableEq, Repr

/-- The `sql.Result` of an executed statement. -/
structure Result where
  LastInsertId : Except GoError Int
  RowsAffected : Except GoError Int

/-- The libraries the program calls, over a state `σ` of the world behind the
handle `db`. Each call gets the statement text and the bound parameters. -/
structure Env (σ : Type) where
  Query : σ → String → List Value → Except GoError Rows × σ
  QueryRow : σ → String → List Value → ScanResult × σ
  Exec : σ → String → List Value → Except GoError Result × σ
  Quote : String → String

/-! ## The six operations -/

/-- The loop `for rows.Next() { ... rows.Scan ...; albums = append(albums, alb) }`.
A failed `Scan` leaves the loop with the error, wrapped by the caller. -/
def scanRows (wrap : GoError → GoError) : List ScanResult → List Album → Except GoError (List Album)
  | [], albums => .ok albums
  | .fail err _ :: _, _ => .error (wrap err)
  | .ok c :: rest, albums => scanRows wrap rest (albums ++ [scanInto c])

/-- `albumsByArtist` queries for albums that have the specified artist name. -/
def albumsByArtist {σ : Type} (db : Env σ) (s : σ) (name : String) :
    (List Album × Option GoError) × σ :=
  let wrap := fun (err : GoError) =>
    Errorf ("albumsByArtist " ++ db.Quote name ++ ": " ++ err.Error)
  match db.Query s "SELECT * FROM album WHERE artist = ?" [Value.str name] with
  | (.error err, s1) => (([], some (wrap err)), s1)
  | (.ok rows, s1) =>
    match scanRows wrap rows.scans [] with
    | .error e => (([], some e), s1)
    | .ok albums =>
      match rows.err with
      | some err => (([], some (wrap err)), s1)
      | none => ((albums, none), s1)

/-- `getAllAlbums` queries for all albums. -/
def getAllAlbums {σ : Type} (db : Env σ) (s : σ) : (List Album × Option GoError) × σ :=
  let wrap := fun (err : GoError) => Errorf ("albums: " ++ err.Error)
  match db.Query s "SELECT * FROM album" [] with
  | (.error err, s1) => (([], some (wrap err)), s1)
  | (.ok rows, s1) =>
    match scanRows wrap rows.scans [] with
    | .error e => (([], some e), s1)
    | .ok albums =>
      match rows.err with
      | some err => (([], some (wrap err)), s1)
      | none => ((albums, none), s1)

/-- `albumByID` queries for the album with the specified ID. -/
def albumByID {σ : Type} (db : Env σ) (s : σ) (id : Int) : (Album × Option GoError) × σ :=
  match db.QueryRow s "SELECT * FROM album WHERE id = ?" [Value.int id] with
  | (.fail err left, s1) =>
    if err = GoError.ErrNoRows then
      ((scanInto left, some (Errorf ("albumByID " ++ fmtD id ++ ": no such album"))), s1)
    else
      ((scanInto left, some (Errorf ("albumByID " ++ fmtD id ++ ": " ++ err.Error))), s1)
  | (.ok c, s1) => ((scanInto c, none), s1)

/-- `addAlbum` adds the specified album to the database, returning the album
ID of the new entry. -/
def addAlbum {σ : Type} (db : Env σ) (s : σ) (alb : Album) : (Int × Option GoError) × σ :=
  match db.Exec s "INSERT INTO album (title, artist, price) VALUES (?, ?, ?)"
      [Value.str alb.Title, Value.str alb.Artist, Value.float alb.Price] with
  | (.error err, s1) => ((0, some (Errorf ("addAlbum: " ++ err.Error))), s1)
  | (.ok result, s1) =>
    match result.LastInsertId with
    | .error err => ((0, some (Errorf ("addAlbum: " ++ err.Error))), s1)
    | .ok id => ((id, none), s1)

/-- `updateAlbum` updates the specified album, returning the number of rows
affected by the update. -/
def updateAlbum {σ : Type} (db : Env σ) (s : σ) (alb : Album) (id : Int) :
    (Int × Option GoError) × σ :=
  match db.Exec s "UPDATE album SET title = ?, artist = ?, price = ? WHERE id = ?"
      [Value.str alb.Title, Value.str alb.Artist, Value.float alb.Price, Value.int id] with
  | (.error err, s1) =>
    ((0, some (Errorf ("updateAlbum id " ++ fmtD id ++ ": " ++ err.Error))), s1)
  | (.ok result, s1) =>
    match result.RowsAffected with
    | .error err =>
      ((0, some (Errorf ("updateAlbum id " ++ fmtD id ++ ": " ++ err.Error))), s1)
    | .ok count => ((count, none), s1)

/-- `deleteAlbum` deletes the specified album, returning the number of rows
affected by the delete. -/
def deleteAlbum {σ : Type} (db : Env σ) (s : σ) (id : Int) : (Int × Option GoError) × σ :=
  match db.Exec s "DELETE FROM album WHERE id = ?" [Value.int id] with
  | (.error err, s1) =>
    ((0, some (Errorf ("deleteAlbum id " ++ fmtD id ++ ": " ++ err.Error))), s1)
  | (.ok result, s1) =>
    match result.RowsAffected with
    | .error err =>
      ((0, some (Errorf ("deleteAlbum id " ++ fmtD id ++ ": " ++ err.Error))), s1)
    | .ok count => ((count, none), s1)

/-! ## Environments built from others -/

/-- A statement as it reaches the database: its text and its bound parameters. -/
structure Stmt where
  text : String
  args : List Value
  deriving DecidableEq, Repr

/-- The environment `db` with a journal: every call is answered by `db`, and
the statement it carried is appended to the journal. -/
def logged {σ : Type} (db : Env σ) : Env (σ × List Stmt) where
  Query := fun s text args =>
    ((db.Query s.1 text args).1, ((db.Query s.1 text args).2, s.2 ++ [⟨text, args⟩]))
  QueryRow := fun s text args =>
    ((db.QueryRow s.1 text args).1, ((db.QueryRow s.1 text args).2, s.2 ++ [⟨text, args⟩]))
  Exec := fun s text args =>
    ((db.Exec s.1 text args).1, ((db.Exec s.1 text args).2, s.2 ++ [⟨text, args⟩]))
  Quote := db.Quote

/-- The environment `db` on a connection that breaks once the rows of a result
set have been delivered: `db.Query` answers as before, and `rows.Err()` then
reports `e`. -/
def lostAfterRows {σ : Type} (db : Env σ) (e : GoError) : Env σ where
  Query := fun s text args =>
    match db.Query s text args with
    | (.ok rows, s1) => (.ok { rows with err := some e }, s1)
    | (.error err, s1) => (.error err, s1)
  QueryRow := db.QueryRow
  Exec := db.Exec
  Quote := db.Quote

/-- The verb `%q` on a string of letters, digits and blanks: the string
between double quotes. Go escapes other characters; the operations take the
verb from the environment, and this function is used on such strings only. -/
def quotePlain (s : String) : String :=
  String.singleton (Char.ofNat 34) ++ s ++ String.singleton (Char.ofNat 34)

/-! ## The reference table -/

/-- Modelled from the spec: the schema of the database is not part of the
repository. One row of the table `album(id, title, artist, price)`, by column
name. -/
structure Record where
  id : Int
  title : String
  artist : String
  price : Float32
  deriving DecidableEq, Repr

/-- The columns of a row in the order of the schema, `id, title, artist,
price`, which is the order `SELECT *` delivers them in. -/
def Record.columns (r : Record) : Columns := ⟨r.id, r.title, r.artist, r.price⟩

/-- Modelled from the spec: the database behind the handle `db` is not part of
the repository. The table `album`: its rows in the order in which they are
delivered, and the key the database assigns to the next inserted row (`id` is
assigned by the database on insert), larger than every key in use. -/
structure Table where
  rows : List Record
  nextID : Int
  fresh : ∀ r ∈ rows, r.id < nextID

/-- Modelled from the spec: the database is not part of the repository. The
statement `INSERT INTO album (title, artist, price) VALUES (?, ?, ?)`: a new
row with the next key and the three bound values, after the rows in place. -/
def Table.insert (t : Table) (title artist : String) (price : Float32) : Table where
  rows := t.rows ++ [⟨t.nextID, title, artist, price⟩]
  nextID := t.nextID + 1
  fresh := by
    intro r hr
    rcases List.mem_append.mp hr with h | h
    · have := t.fresh r h
      omega
    · have hr2 : r = ⟨t.nextID, title, artist, price⟩ := by simpa using h
      subst hr2
      show t.nextID < t.nextID + 1
      omega

/-- The row `r` after `SET title = ?, artist = ?, price = ?`. -/
def Record.set (r : Record) (title artist : String) (price : Float32) : Record :=
  { r with title := title, artist := artist, price := price }

/-- Modelled from the spec: the database is not part of the repository. The
statement `UPDATE album SET title = ?, artist = ?, price = ? WHERE id = ?`:
the three columns other than `id` are overwritten together in the rows with
that key. -/
def Table.update (t : Table) (title artist : String) (price : Float32) (id : Int) : Table where
  rows := t.rows.map (fun r => if r.id = id then r.set title artist price else r)
  nextID := t.nextID
  fresh := by
    intro r hr
    obtain ⟨r0, h0, rfl⟩ := List.mem_map.mp hr
    have := t.fresh r0 h0
    by_cases h : r0.id = id
    · simpa [h, Record.set] using (h ▸ this)
    · simpa [h] using this

/-- Modelled from the spec: the database is not part of the repository. The
affected-row count of an update with key `id`, the number of rows the
statement modified: the rows with that key whose three other columns do not
already hold the new values. -/
def Table.updateCount (t : Table) (title artist : String) (price : Float32) (id : Int) : Int :=
  ((t.rows.filter (fun r => decide (r.id = id) && !decide (r.set title artist price = r))).length : Int)

/-- Modelled from the spec: the database is not part of the repository. The
statement `DELETE FROM album WHERE id = ?`: the rows with that key are
removed. -/
def Table.delete (t : Table) (id : Int) : Table where
  rows := t.rows.filter (fun r => !decide (r.id = id))
  nextID := t.nextID
  fresh := fun r hr => t.fresh r (List.mem_of_mem_filter hr)

/-- Modelled from the spec: the database is not part of the repository. The
affected-row count of a delete with key `id`: the number of rows removed. -/
def Table.deleteCount (t : Table) (id : Int) : Int :=
  ((t.rows.filter (fun r => decide (r.id = id))).length : Int)

/-- The answer to a statement the table has no meaning for. -/
def badStatement : GoError := .other "Error 1064: You have an error in your SQL syntax"

/-- Modelled from the spec: the database and its driver are not part of the
repository. The handle `db` on the reference table: the meaning of the six
statements of the program on a list of rows. Every call succeeds on those
statements, a bound value is stored as it is, the comparison in a `WHERE`
clause is equality of the values, and `SELECT *` delivers the columns in the
order `id, title, artist, price`. -/
def tableEnv (quote : String → String) : Env Table where
  Query := fun t text args =>
    if text = "SELECT * FROM album WHERE artist = ?" then
      match args with
      | [Value.str name] =>
        (.ok ⟨(t.rows.filter (fun r => decide (r.artist = name))).map (fun r => .ok r.columns),
          none⟩, t)
      | _ => (.error badStatement, t)
    else if text = "SELECT * FROM album" then
      match args with
      | [] => (.ok ⟨t.rows.map (fun r => .ok r.columns), none⟩, t)
      | _ => (.error badStatement, t)
    else (.error badStatement, t)
  QueryRow := fun t text args =>
    if text = "SELECT * FROM album WHERE id = ?" then
      match args with
      | [Value.int id] =>
        match t.rows.find? (fun r => decide (r.id = id)) with
        | some r => (.ok r.columns, t)
        | none => (.fail GoError.ErrNoRows Columns.zero, t)
      | _ => (.fail badStatement Columns.zero, t)
    else (.fail badStatement Columns.zero, t)
  Exec := fun t text args =>
    if text = "INSERT INTO album (title, artist, price) VALUES (?, ?, ?)" then
      match args with
      | [Value.str title, Value.str artist, Value.float price] =>
        (.ok ⟨.ok t.nextID, .ok 1⟩, t.insert title artist price)
      | _ => (.error badStatement, t)
    else if text = "UPDATE album SET title = ?, artist = ?, price = ? WHERE id = ?" then
      match args with
      | [Value.str title, Value.str artist, Value.float price, Value.int id] =>
        (.ok ⟨.ok 0, .ok (t.updateCount title artist price id)⟩, t.update title artist price id)
      | _ => (.error badStatement, t)
    else if text = "DELETE FROM album WHERE id = ?" then
      match args with
      | [Value.int id] => (.ok ⟨.ok 0, .ok (t.deleteCount id)⟩, t.delete id)
      | _ => (.error badStatement, t)
    else (.error badStatement, t)
  Quote := quote

/-- A sample table with four rows, two of them by the artist the program
looks for; the prices are 56.99, 63.99, 17.99 and 34.98 as `float32`. -/
def sampleTable : Table where
  rows := [⟨1, "Blue Train", "John Coltrane", ⟨1113847235⟩⟩,
    ⟨2, "Giant Steps", "John Coltrane", ⟨1115682243⟩⟩,
    ⟨3, "Jeru", "Gerry Mulligan", ⟨1099950981⟩⟩,
    ⟨4, "Sarah Vaughan", "Sarah Vaughan", ⟨1108077445⟩⟩]
  nextID := 5
  fresh := by
    intro r hr
    simp only [List.mem_cons, List.mem_singleton, List.not_mem_nil, or_false] at hr
    rcases hr with h | h | h | h <;> subst h <;> decide

/-- The album the program inserts in `main`, with the price 49.99 as `float32`. -/
def bettyCarter : Album :=
  { ID := 0, Title := "The Modern Sound of Betty Carter", Artist := "Betty Carter",
    Price := ⟨1112012227⟩ }

/-- An environment that answers every call the same way, whatever the
statement: `q` to `Query`, `r` to `QueryRow`, `x` to `Exec`. -/
def constEnv (q : Except GoError Rows) (r : ScanResult) (x : Except GoError Result) : Env Unit where
  Query := fun _ _ _ => (q, ())
  QueryRow := fun _ _ _ => (r, ())
  Exec := fun _ _ _ => (x, ())
  Quote := quotePlain

/-- The error `e` carries the text `part`: `part` occurs in the message of `e`. -/
def carries (e : GoError) (part : String) : Prop := part.data <:+: e.Error.data

instance (e : GoError) (part : String) : Decidable (carries e part) := by
  unfold carries
  infer_instance

/-! ## Lemmas on strings and on the row loop -/

theorem str_append_cancel_left (a b c : String) (h : a ++ b = a ++ c) : b = c := by
  have hd : (a ++ b).data = (a ++ c).data := by rw [h]
  rw [String.data_append, String.data_append] at hd
  exact String.ext (List.append_cancel_left hd)

theorem carries_mid (a b c : String) : carries (Errorf (a ++ b ++ c)) b := by
  unfold carries Errorf GoError.Error
  simp only [String.data_append]
  exact ⟨a.data, c.data, rfl⟩

theorem carries_end (a b : String) : carries (Errorf (a ++ b)) b := by
  unfold carries Errorf GoError.Error
  simp only [String.data_append]
  exact ⟨a.data, [], by simp⟩

theorem carries_start_of (a b c : String) (h : carries (Errorf a) c) : carries (Errorf (a ++ b)) c := by
  unfold carries Errorf GoError.Error at *
  simp only [String.data_append]
  exact List.IsInfix.trans h ⟨[], b.data, by simp⟩

theorem scanRows_ok (wrap : GoError → GoError) (cols : List Columns) (acc : List Album) :
    scanRows wrap (cols.map ScanResult.ok) acc = .ok (acc ++ cols.map scanInto) := by
  induction cols generalizing acc with
  | nil => simp [scanRows]
  | cons c rest ih => simp [scanRows, ih]

theorem scanRows_fail (wrap : GoError → GoError) (cols : List Columns) (cause : GoError)
    (left : Columns) (rest : List ScanResult) (acc : List Album) :
    scanRows wrap (cols.map ScanResult.ok ++ ScanResult.fail cause left :: rest) acc
      = .error (wrap cause) := by
  induction cols generalizing acc with
  | nil => simp [scanRows]
  | cons c more ih => simp [scanRows, ih]

theorem scanRows_error (wrap : GoError → GoError) (l : List ScanResult) (acc : List Album)
    (e : GoError) (h : scanRows wrap l acc = .error e) : ∃ cause, e = wrap cause := by
  induction l generalizing acc with
  | nil => simp [scanRows] at h
  | cons x rest ih =>
    cases x with
    | ok c => exact ih _ (by simpa [scanRows] using h)
    | fail err left =>
      refine ⟨err, ?_⟩
      simp only [scanRows] at h
      injection h with h
      exact h.symm

/-! ## The state after an operation

Every operation makes one call on the handle, on every path; the state it
leaves is the state that call leaves. -/

theorem albumsByArtist_state {σ : Type} (db : Env σ) (s : σ) (name : String) :
    (albumsByArtist db s name).2
      = (db.Query s "SELECT * FROM album WHERE artist = ?" [Value.str name]).2 := by
  unfold albumsByArtist
  rcases db.Query s "SELECT * FROM album WHERE artist = ?" [Value.str name] with ⟨r, s1⟩
  cases r with
  | error err => rfl
  | ok rows =>
    dsimp only
    split
    · rfl
    · split <;> rfl

theorem getAllAlbums_state {σ : Type} (db : Env σ) (s : σ) :
    (getAllAlbums db s).2 = (db.Query s "SELECT * FROM album" []).2 := by
  unfold getAllAlbums
  rcases db.Query s "SELECT * FROM album" [] with ⟨r, s1⟩
  cases r with
  | error err => rfl
  | ok rows =>
    dsimp only
    split
    · rfl
    · split <;> rfl

theorem albumByID_state {σ : Type} (db : Env σ) (s : σ) (id : Int) :
    (albumByID db s id).2 = (db.QueryRow s "SELECT * FROM album WHERE id = ?" [Value.int id]).2 := by
  unfold albumByID
  rcases db.QueryRow s "SELECT * FROM album WHERE id = ?" [Value.int id] with ⟨r, s1⟩
  cases r with
  | ok c => rfl
  | fail err left =>
    dsimp only
    split <;> rfl

theorem addAlbum_state {σ : Type} (db : Env σ) (s : σ) (alb : Album) :
    (addAlbum db s alb).2
      = (db.Exec s "INSERT INTO album (title, artist, price) VALUES (?, ?, ?)"
          [Value.str alb.Title, Value.str alb.Artist, Value.float alb.Price]).2 := by
  unfold addAlbum
  rcases db.Exec s "INSERT INTO album (title, artist, price) VALUES (?, ?, ?)"
      [Value.str alb.Title, Value.str alb.Artist, Value.float alb.Price] with ⟨r, s1⟩
  cases r with
  | error err => rfl
  | ok res =>
    dsimp only
    split <;> rfl

theorem updateAlbum_state {σ : Type} (db : Env σ) (s : σ) (alb : Album) (id : Int) :
    (updateAlbum db s alb id).2
      = (db.Exec s "UPDATE album SET title = ?, artist = ?, price = ? WHERE id = ?"
          [Value.str alb.Title, Value.str alb.Artist, Value.float alb.Price, Value.int id]).2 := by
  unfold updateAlbum
  rcases db.Exec s "UPDATE album SET title = ?, artist = ?, price = ? WHERE id = ?"
      [Value.str alb.Title, Value.str alb.Artist, Value.float alb.Price, Value.int id] with ⟨r, s1⟩
  cases r with
  | error err => rfl
  | ok res =>
    dsimp only
    split <;> rfl

theorem deleteAlbum_state {σ : Type} (db : Env σ) (s : σ) (id : Int) :
    (deleteAlbum db s id).2 = (db.Exec s "DELETE FROM album WHERE id = ?" [Value.int id]).2 := by
  unfold deleteAlbum
  rcases db.Exec s "DELETE FROM album WHERE id = ?" [Value.int id] with ⟨r, s1⟩
  cases r with
  | error err => rfl
  | ok res =>
    dsimp only
    split <;> rfl

/-! ## albumByID: the error for an absent row -/

/-- C1, at a concrete input: the claim as stated fails. With id 7, a lookup
that matches zero rows and a lookup whose read fails with an error whose text
is `no such album` (an error value that is not the sentinel) make `albumByID`
return the same error, `albumByID 7: no such album`. -/
theorem albumByID_notFound_collision :
    GoError.other "no such album" ≠ GoError.ErrNoRows ∧
    (albumByID (constEnv (.ok ⟨[], none⟩) (.fail GoError.ErrNoRows Columns.zero)
        (.error badStatement)) () 7).1.2
      = some (GoError.other "albumByID 7: no such album") ∧
    (albumByID (constEnv (.ok ⟨[], none⟩) (.fail (GoError.other "no such album") Columns.zero)
        (.error badStatement)) () 7).1.2
      = some (GoError.other "albumByID 7: no such album") := by
  refine ⟨by decide, ?_, ?_⟩ <;> decide

/-- C1, amended: when the lookup of `albumByID` matches zero rows (the scan
reports `sql.ErrNoRows`), `albumByID` returns the error
`albumByID <id>: no such album`; for any other read or scan failure with the
same id it returns `albumByID <id>: <cause>`, and the two errors differ
whenever the text of the cause is not `no such album`. -/
theorem albumByID_notFound_distinct {σ τ : Type} (db : Env σ) (s : σ) (db2 : Env τ) (s2 : τ)
    (id : Int) (left left2 : Columns) (cause : GoError)
    (h1 : (db.QueryRow s "SELECT * FROM album WHERE id = ?" [Value.int id]).1
      = .fail GoError.ErrNoRows left)
    (h2 : (db2.QueryRow s2 "SELECT * FROM album WHERE id = ?" [Value.int id]).1
      = .fail cause left2)
    (hc : cause ≠ GoError.ErrNoRows) (hmsg : cause.Error ≠ "no such album") :
    (albumByID db s id).1.2 = some (Errorf ("albumByID " ++ fmtD id ++ ": no such album")) ∧
    (albumByID db2 s2 id).1.2
      = some (Errorf ("albumByID " ++ fmtD id ++ ": " ++ cause.Error)) ∧
    (albumByID db s id).1.2 ≠ (albumByID db2 s2 id).1.2 := by
  have e1 : (albumByID db s id).1.2
      = some (Errorf ("albumByID " ++ fmtD id ++ ": no such album")) := by
    unfold albumByID
    rcases hq : db.QueryRow s "SELECT * FROM album WHERE id = ?" [Value.int id] with ⟨r, s1⟩
    rw [hq] at h1
    simp only at h1
    subst h1
    simp
  have e2 : (albumByID db2 s2 id).1.2
      = some (Errorf ("albumByID " ++ fmtD id ++ ": " ++ cause.Error)) := by
    unfold albumByID
    rcases hq : db2.QueryRow s2 "SELECT * FROM album WHERE id = ?" [Value.int id] with ⟨r, s1⟩
    rw [hq] at h2
    simp only at h2
    subst h2
    simp [hc]
  refine ⟨e1, e2, ?_⟩
  rw [e1, e2]
  intro h
  have h3 : "albumByID " ++ fmtD id ++ ": no such album"
      = "albumByID " ++ fmtD id ++ ": " ++ cause.Error := by
    simpa [Errorf] using h
  have h4 : ("albumByID " ++ fmtD id ++ ": ") ++ "no such album"
      = ("albumByID " ++ fmtD id ++ ": ") ++ cause.Error := by
    simpa [String.append_assoc] using h3
  exact hmsg (str_append_cancel_left _ _ _ h4).symm

/-- C1, amended, at a concrete input: id 7, the cause `driver: bad connection`. -/
theorem albumByID_notFound_distinct_witness :
    (albumByID (constEnv (.ok ⟨[], none⟩) (.fail GoError.ErrNoRows Columns.zero)
        (.error badStatement)) () 7).1.2
      ≠ (albumByID (constEnv (.ok ⟨[], none⟩)
        (.fail (GoError.other "driver: bad connection") Columns.zero)
        (.error badStatement)) () 7).1.2 :=
  (albumByID_notFound_distinct
    (constEnv (.ok ⟨[], none⟩) (.fail GoError.ErrNoRows Columns.zero) (.error badStatement)) ()
    (constEnv (.ok ⟨[], none⟩) (.fail (GoError.other "driver: bad connection") Columns.zero)
      (.error badStatement)) ()
    7 Columns.zero Columns.zero (GoError.other "driver: bad connection")
    rfl rfl (by decide) (by decide)).2.2

/-! ## addAlbum: errors and the returned id -/

/-- C6: `addAlbum` returns an error exactly when the execution of the insert
fails or the retrieval of the last-insert id fails; when neither fails it
returns a nil error and the id reported by `LastInsertId`, unmodified; when it
returns an error the returned id is 0. On the reference table the id returned
is the key of the row the insert added. -/
theorem addAlbum_error_iff {σ : Type} (db : Env σ) (s : σ) (alb : Album)
    (quote : String → String) (t : Table) :
    ((addAlbum db s alb).1.2 ≠ none ↔
      ((∃ err, (db.Exec s "INSERT INTO album (title, artist, price) VALUES (?, ?, ?)"
          [Value.str alb.Title, Value.str alb.Artist, Value.float alb.Price]).1 = .error err) ∨
       (∃ res err, (db.Exec s "INSERT INTO album (title, artist, price) VALUES (?, ?, ?)"
          [Value.str alb.Title, Value.str alb.Artist, Value.float alb.Price]).1 = .ok res ∧
          res.LastInsertId = .error err))) ∧
    (∀ res id, (db.Exec s "INSERT INTO album (title, artist, price) VALUES (?, ?, ?)"
          [Value.str alb.Title, Value.str alb.Artist, Value.float alb.Price]).1 = .ok res →
        res.LastInsertId = .ok id → (addAlbum db s alb).1 = (id, none)) ∧
    ((addAlbum db s alb).1.2 ≠ none → (addAlbum db s alb).1.1 = 0) ∧
    (addAlbum (tableEnv quote) t alb).1.2 = none ∧
    (addAlbum (tableEnv quote) t alb).2.rows
      = t.rows ++ [⟨(addAlbum (tableEnv quote) t alb).1.1, alb.Title, alb.Artist, alb.Price⟩] := by
  have core : ((addAlbum db s alb).1.2 ≠ none ↔
      ((∃ err, (db.Exec s "INSERT INTO album (title, artist, price) VALUES (?, ?, ?)"
          [Value.str alb.Title, Value.str alb.Artist, Value.float alb.Price]).1 = .error err) ∨
       (∃ res err, (db.Exec s "INSERT INTO album (title, artist, price) VALUES (?, ?, ?)"
          [Value.str alb.Title, Value.str alb.Artist, Value.float alb.Price]).1 = .ok res ∧
          res.LastInsertId = .error err))) ∧
    (∀ res id, (db.Exec s "INSERT INTO album (title, artist, price) VALUES (?, ?, ?)"
          [Value.str alb.Title, Value.str alb.Artist, Value.float alb.Price]).1 = .ok res →
        res.LastInsertId = .ok id → (addAlbum db s alb).1 = (id, none)) ∧
    ((addAlbum db s alb).1.2 ≠ none → (addAlbum db s alb).1.1 = 0) := by
    unfold addAlbum
    rcases hq : db.Exec s "INSERT INTO album (title, artist, price) VALUES (?, ?, ?)"
        [Value.str alb.Title, Value.str alb.Artist, Value.float alb.Price] with ⟨r, s1⟩
    cases r with
    | error err => simp
    | ok res =>
      cases hl : res.LastInsertId with
      | error err =>
        simp [hl]
        intro res2 id2 h
        subst h
        simp [hl]
      | ok id =>
        simp [hl]
        intro res2 id2 h h2
        subst h
        rw [hl] at h2
        injection h2
  exact ⟨core.1, core.2.1, core.2.2, rfl, rfl⟩

/-! ## albumsByArtist: failures -/

/-- C7: if the query of `albumsByArtist` fails, or the scan of some row fails
(the first, a middle or the last one, after any number of rows scanned
successfully), or the iteration over the rows ends with an error, then
`albumsByArtist` returns no albums and an error whose message is
`albumsByArtist <quoted name>: <cause>`, which carries the artist name as the
verb `%q` writes it and the text of the underlying cause. -/
theorem albumsByArtist_failure {σ : Type} (db : Env σ) (s : σ) (name : String) (cause : GoError)
    (h : (db.Query s "SELECT * FROM album WHERE artist = ?" [Value.str name]).1 = .error cause ∨
      (∃ (rows : Rows) (cols : List Columns) (left : Columns) (rest : List ScanResult),
        (db.Query s "SELECT * FROM album WHERE artist = ?" [Value.str name]).1 = .ok rows ∧
        rows.scans = cols.map ScanResult.ok ++ ScanResult.fail cause left :: rest) ∨
      (∃ (rows : Rows) (cols : List Columns),
        (db.Query s "SELECT * FROM album WHERE artist = ?" [Value.str name]).1 = .ok rows ∧
        rows.scans = cols.map ScanResult.ok ∧ rows.err = some cause)) :
    (albumsByArtist db s name).1
      = ([], some (Errorf ("albumsByArtist " ++ db.Quote name ++ ": " ++ cause.Error))) ∧
    carries (Errorf ("albumsByArtist " ++ db.Quote name ++ ": " ++ cause.Error)) (db.Quote name) ∧
    carries (Errorf ("albumsByArtist " ++ db.Quote name ++ ": " ++ cause.Error)) cause.Error := by
  refine ⟨?_, ?_, carries_end _ _⟩
  · unfold albumsByArtist
    rcases hq : db.Query s "SELECT * FROM album WHERE artist = ?" [Value.str name] with ⟨r, s1⟩
    rw [hq] at h
    rcases h with h | ⟨rows, cols, left, rest, h, hs⟩ | ⟨rows, cols, h, hs, he⟩
    · simp only at h
      subst h
      rfl
    · simp only at h
      subst h
      simp only [hs, scanRows_fail]
    · simp only at h
      subst h
      simp only [hs, scanRows_ok, he]
  · have := carries_mid "albumsByArtist " (db.Quote name) (": " ++ cause.Error)
    simpa [String.append_assoc] using this

/-- C7 at a concrete input: the artist `John Coltrane`, two rows scanned and
the scan of the third failing. -/
theorem albumsByArtist_failure_witness :
    (albumsByArtist (constEnv
        (.ok ⟨[.ok ⟨1, "Blue Train", "John Coltrane", ⟨1113847235⟩⟩,
          .ok ⟨2, "Giant Steps", "John Coltrane", ⟨1115682243⟩⟩,
          .fail (GoError.other "converting NULL to string is unsupported") Columns.zero], none⟩)
        (.ok Columns.zero) (.error badStatement)) () "John Coltrane").1
      = ([], some (Errorf ("albumsByArtist " ++ quotePlain "John Coltrane" ++ ": "
          ++ "converting NULL to string is unsupported"))) :=
  (albumsByArtist_failure
    (constEnv
        (.ok ⟨[.ok ⟨1, "Blue Train", "John Coltrane", ⟨1113847235⟩⟩,
          .ok ⟨2, "Giant Steps", "John Coltrane", ⟨1115682243⟩⟩,
          .fail (GoError.other "converting NULL to string is unsupported") Columns.zero], none⟩)
        (.ok Columns.zero) (.error badStatement)) () "John Coltrane"
    (GoError.other "converting NULL to string is unsupported")
    (Or.inr (Or.inl ⟨_, [⟨1, "Blue Train", "John Coltrane", ⟨1113847235⟩⟩,
      ⟨2, "Giant Steps", "John Coltrane", ⟨1115682243⟩⟩], Columns.zero, [], rfl, rfl⟩))).1

/-! ## The statements sent to the database -/

/-- C9: each of the six operations sends exactly one statement, whose text is
a fixed string that does not depend on the input; the user-supplied values
travel in the list of bound parameters, unmodified: the artist name, the id,
or title, artist, price (then id) for the writes. This holds for every
behaviour of the database. -/
theorem statement_text_fixed {σ : Type} (db : Env σ) (s : σ) (log : List Stmt)
    (name : String) (id : Int) (alb : Album) :
    (albumsByArtist (logged db) (s, log) name).2.2
      = log ++ [⟨"SELECT * FROM album WHERE artist = ?", [Value.str name]⟩] ∧
    (getAllAlbums (logged db) (s, log)).2.2 = log ++ [⟨"SELECT * FROM album", []⟩] ∧
    (albumByID (logged db) (s, log) id).2.2
      = log ++ [⟨"SELECT * FROM album WHERE id = ?", [Value.int id]⟩] ∧
    (addAlbum (logged db) (s, log) alb).2.2
      = log ++ [⟨"INSERT INTO album (title, artist, price) VALUES (?, ?, ?)",
          [Value.str alb.Title, Value.str alb.Artist, Value.float alb.Price]⟩] ∧
    (updateAlbum (logged db) (s, log) alb id).2.2
      = log ++ [⟨"UPDATE album SET title = ?, artist = ?, price = ? WHERE id = ?",
          [Value.str alb.Title, Value.str alb.Artist, Value.float alb.Price, Value.int id]⟩] ∧
    (deleteAlbum (logged db) (s, log) id).2.2
      = log ++ [⟨"DELETE FROM album WHERE id = ?", [Value.int id]⟩] := by
  refine ⟨?_, ?_, ?_, ?_, ?_, ?_⟩
  · rw [albumsByArtist_state]; rfl
  · rw [getAllAlbums_state]; rfl
  · rw [albumByID_state]; rfl
  · rw [addAlbum_state]; rfl
  · rw [updateAlbum_state]; rfl
  · rw [deleteAlbum_state]; rfl

/-! ## The context added to errors -/

theorem albumsByArtist_error_shape {σ : Type} (db : Env σ) (s : σ) (name : String) (e : GoError)
    (h : (albumsByArtist db s name).1.2 = some e) :
    ∃ cause : GoError, e = Errorf ("albumsByArtist " ++ db.Quote name ++ ": " ++ cause.Error) := by
  unfold albumsByArtist at h
  generalize db.Query s "SELECT * FROM album WHERE artist = ?" [Value.str name] = q at h
  rcases q with ⟨r, s1⟩
  cases r with
  | error err => exact ⟨err, by simpa using h.symm⟩
  | ok rows =>
    dsimp only at h
    split at h
    · next e2 hs =>
      obtain ⟨cause, hc⟩ := scanRows_error _ _ _ _ hs
      exact ⟨cause, by rw [← hc]; simpa using h.symm⟩
    · split at h
      · next err he => exact ⟨err, by simpa using h.symm⟩
      · simp at h

theorem getAllAlbums_error_shape {σ : Type} (db : Env σ) (s : σ) (e : GoError)
    (h : (getAllAlbums db s).1.2 = some e) :
    ∃ cause : GoError, e = Errorf ("albums: " ++ cause.Error) := by
  unfold getAllAlbums at h
  generalize db.Query s "SELECT * FROM album" [] = q at h
  rcases q with ⟨r, s1⟩
  cases r with
  | error err => exact ⟨err, by simpa using h.symm⟩
  | ok rows =>
    dsimp only at h
    split at h
    · next e2 hs =>
      obtain ⟨cause, hc⟩ := scanRows_error _ _ _ _ hs
      exact ⟨cause, by rw [← hc]; simpa using h.symm⟩
    · split at h
      · next err he => exact ⟨err, by simpa using h.symm⟩
      · simp at h

theorem albumByID_error_shape {σ : Type} (db : Env σ) (s : σ) (id : Int) (e : GoError)
    (h : (albumByID db s id).1.2 = some e) :
    e = Errorf ("albumByID " ++ fmtD id ++ ": no such album") ∨
    ∃ cause : GoError, e = Errorf ("albumByID " ++ fmtD id ++ ": " ++ cause.Error) := by
  unfold albumByID at h
  generalize db.QueryRow s "SELECT * FROM album WHERE id = ?" [Value.int id] = q at h
  rcases q with ⟨r, s1⟩
  cases r with
  | ok c => simp at h
  | fail err left =>
    dsimp only at h
    split at h
    · exact Or.inl (by simpa using h.symm)
    · exact Or.inr ⟨err, by simpa using h.symm⟩

theorem addAlbum_error_shape {σ : Type} (db : Env σ) (s : σ) (alb : Album) (e : GoError)
    (h : (addAlbum db s alb).1.2 = some e) :
    ∃ cause : GoError, e = Errorf ("addAlbum: " ++ cause.Error) := by
  unfold addAlbum at h
  generalize db.Exec s "INSERT INTO album (title, artist, price) VALUES (?, ?, ?)"
      [Value.str alb.Title, Value.str alb.Artist, Value.float alb.Price] = q at h
  rcases q with ⟨r, s1⟩
  cases r with
  | error err => exact ⟨err, by simpa using h.symm⟩
  | ok res =>
    dsimp only at h
    split at h
    · next err he => exact ⟨err, by simpa using h.symm⟩
    · simp at h

theorem updateAlbum_error_shape {σ : Type} (db : Env σ) (s : σ) (alb : Album) (id : Int)
    (e : GoError) (h : (updateAlbum db s alb id).1.2 = some e) :
    ∃ cause : GoError, e = Errorf ("updateAlbum id " ++ fmtD id ++ ": " ++ cause.Error) := by
  unfold updateAlbum at h
  generalize db.Exec s "UPDATE album SET title = ?, artist = ?, price = ? WHERE id = ?"
      [Value.str alb.Title, Value.str alb.Artist, Value.float alb.Price, Value.int id] = q at h
  rcases q with ⟨r, s1⟩
  cases r with
  | error err => exact ⟨err, by simpa using h.symm⟩
  | ok res =>
    dsimp only at h
    split at h
    · next err he => exact ⟨err, by simpa using h.symm⟩
    · simp at h

theorem deleteAlbum_error_shape {σ : Type} (db : Env σ) (s : σ) (id : Int)
    (e : GoError) (h : (deleteAlbum db s id).1.2 = some e) :
    ∃ cause : GoError, e = Errorf ("deleteAlbum id " ++ fmtD id ++ ": " ++ cause.Error) := by
  unfold deleteAlbum at h
  generalize db.Exec s "DELETE FROM album WHERE id = ?" [Value.int id] = q at h
  rcases q with ⟨r, s1⟩
  cases r with
  | error err => exact ⟨err, by simpa using h.symm⟩
  | ok res =>
    dsimp only at h
    split at h
    · next err he => exact ⟨err, by simpa using h.symm⟩
    · simp at h

/-- C10, at a concrete input: the claim as stated fails for `addAlbum`. When
the insert of the album `The Modern Sound of Betty Carter` fails with
`connection refused`, the error returned is `addAlbum: connection refused`:
it carries neither the title nor the artist of the album being written, and
it is the same error for a different album. -/
theorem addAlbum_error_without_album :
    (addAlbum (constEnv (.ok ⟨[], none⟩) (.ok Columns.zero)
        (.error (GoError.other "connection refused"))) () bettyCarter).1.2
      = some (GoError.other "addAlbum: connection refused") ∧
    ¬ carries (GoError.other "addAlbum: connection refused") bettyCarter.Title ∧
    ¬ carries (GoError.other "addAlbum: connection refused") bettyCarter.Artist ∧
    (addAlbum (constEnv (.ok ⟨[], none⟩) (.ok Columns.zero)
        (.error (GoError.other "connection refused"))) ()
        { ID := 0, Title := "Jeru", Artist := "Gerry Mulligan", Price := ⟨1099950981⟩ }).1.2
      = some (GoError.other "addAlbum: connection refused") := by
  refine ⟨by decide, by decide, by decide, by decide⟩

theorem albumsByArtist_on_failure {σ : Type} (db : Env σ) (s : σ) (name : String)
    (cause : GoError)
    (h : (db.Query s "SELECT * FROM album WHERE artist = ?" [Value.str name]).1 = .error cause ∨
      (∃ (rows : Rows) (cols : List Columns) (left : Columns) (rest : List ScanResult),
        (db.Query s "SELECT * FROM album WHERE artist = ?" [Value.str name]).1 = .ok rows ∧
        rows.scans = cols.map ScanResult.ok ++ ScanResult.fail cause left :: rest) ∨
      (∃ (rows : Rows) (cols : List Columns),
        (db.Query s "SELECT * FROM album WHERE artist = ?" [Value.str name]).1 = .ok rows ∧
        rows.scans = cols.map ScanResult.ok ∧ rows.err = some cause)) :
    (albumsByArtist db s name).1.2
      = some (Errorf ("albumsByArtist " ++ db.Quote name ++ ": " ++ cause.Error)) := by
  unfold albumsByArtist
  generalize db.Query s "SELECT * FROM album WHERE artist = ?" [Value.str name] = q at h
  rcases q with ⟨r, s1⟩
  rcases h with h | ⟨rows, cols, left, rest, h, hs⟩ | ⟨rows, cols, h, hs, he⟩
  · simp only at h
    subst h
    rfl
  · simp only at h
    subst h
    simp only [hs, scanRows_fail]
  · simp only at h
    subst h
    simp only [hs, scanRows_ok, he]

theorem getAllAlbums_on_failure {σ : Type} (db : Env σ) (s : σ) (cause : GoError)
    (h : (db.Query s "SELECT * FROM album" []).1 = .error cause ∨
      (∃ (rows : Rows) (cols : List Columns) (left : Columns) (rest : List ScanResult),
        (db.Query s "SELECT * FROM album" []).1 = .ok rows ∧
        rows.scans = cols.map ScanResult.ok ++ ScanResult.fail cause left :: rest) ∨
      (∃ (rows : Rows) (cols : List Columns),
        (db.Query s "SELECT * FROM album" []).1 = .ok rows ∧
        rows.scans = cols.map ScanResult.ok ∧ rows.err = some cause)) :
    (getAllAlbums db s).1.2 = some (Errorf ("albums: " ++ cause.Error)) := by
  unfold getAllAlbums
  generalize db.Query s "SELECT * FROM album" [] = q at h
  rcases q with ⟨r, s1⟩
  rcases h with h | ⟨rows, cols, left, rest, h, hs⟩ | ⟨rows, cols, h, hs, he⟩
  · simp only at h
    subst h
    rfl
  · simp only at h
    subst h
    simp only [hs, scanRows_fail]
  · simp only at h
    subst h
    simp only [hs, scanRows_ok, he]

theorem albumByID_on_failure {σ : Type} (db : Env σ) (s : σ) (id : Int) (cause : GoError)
    (left : Columns)
    (h : (db.QueryRow s "SELECT * FROM album WHERE id = ?" [Value.int id]).1 = .fail cause left) :
    (albumByID db s id).1.2
      = some (if cause = GoError.ErrNoRows then
          Errorf ("albumByID " ++ fmtD id ++ ": no such album")
        else Errorf ("albumByID " ++ fmtD id ++ ": " ++ cause.Error)) := by
  unfold albumByID
  generalize db.QueryRow s "SELECT * FROM album WHERE id = ?" [Value.int id] = q at h
  rcases q with ⟨r, s1⟩
  simp only at h
  subst h
  dsimp only
  split <;> rfl

theorem addAlbum_on_failure {σ : Type} (db : Env σ) (s : σ) (alb : Album) (cause : GoError)
    (h : (db.Exec s "INSERT INTO album (title, artist, price) VALUES (?, ?, ?)"
          [Value.str alb.Title, Value.str alb.Artist, Value.float alb.Price]).1 = .error cause ∨
      (∃ res : Result, (db.Exec s "INSERT INTO album (title, artist, price) VALUES (?, ?, ?)"
          [Value.str alb.Title, Value.str alb.Artist, Value.float alb.Price]).1 = .ok res ∧
          res.LastInsertId = .error cause)) :
    (addAlbum db s alb).1.2 = some (Errorf ("addAlbum: " ++ cause.Error)) := by
  unfold addAlbum
  generalize db.Exec s "INSERT INTO album (title, artist, price) VALUES (?, ?, ?)"
      [Value.str alb.Title, Value.str alb.Artist, Value.float alb.Price] = q at h
  rcases q with ⟨r, s1⟩
  rcases h with h | ⟨res, h, hl⟩
  · simp only at h
    subst h
    rfl
  · simp only at h
    subst h
    simp only [hl]

theorem updateAlbum_on_failure {σ : Type} (db : Env σ) (s : σ) (alb : Album) (id : Int)
    (cause : GoError)
    (h : (db.Exec s "UPDATE album SET title = ?, artist = ?, price = ? WHERE id = ?"
          [Value.str alb.Title, Value.str alb.Artist, Value.float alb.Price, Value.int id]).1
          = .error cause ∨
      (∃ res : Result, (db.Exec s "UPDATE album SET title = ?, artist = ?, price = ? WHERE id = ?"
          [Value.str alb.Title, Value.str alb.Artist, Value.float alb.Price, Value.int id]).1
          = .ok res ∧ res.RowsAffected = .error cause)) :
    (updateAlbum db s alb id).1.2
      = some (Errorf ("updateAlbum id " ++ fmtD id ++ ": " ++ cause.Error)) := by
  unfold updateAlbum
  generalize db.Exec s "UPDATE album SET title = ?, artist = ?, price = ? WHERE id = ?"
      [Value.str alb.Title, Value.str alb.Artist, Value.float alb.Price, Value.int id] = q at h
  rcases q with ⟨r, s1⟩
  rcases h with h | ⟨res, h, hl⟩
  · simp only at h
    subst h
    rfl
  · simp only at h
    subst h
    simp only [hl]

theorem deleteAlbum_on_failure {σ : Type} (db : Env σ) (s : σ) (id : Int) (cause : GoError)
    (h : (db.Exec s "DELETE FROM album WHERE id = ?" [Value.int id]).1 = .error cause ∨
      (∃ res : Result, (db.Exec s "DELETE FROM album WHERE id = ?" [Value.int id]).1 = .ok res ∧
          res.RowsAffected = .error cause)) :
    (deleteAlbum db s id).1.2
      = some (Errorf ("deleteAlbum id " ++ fmtD id ++ ": " ++ cause.Error)) := by
  unfold deleteAlbum
  generalize db.Exec s "DELETE FROM album WHERE id = ?" [Value.int id] = q at h
  rcases q with ⟨r, s1⟩
  rcases h with h | ⟨res, h, hl⟩
  · simp only at h
    subst h
    rfl
  · simp only at h
    subst h
    simp only [hl]

/-- C10, amended: for every failure of an underlying database call, with
cause `cause`, the operation returns an error with the message
`albumsByArtist <quoted name>: <cause>` for `albumsByArtist`,
`albumByID <id>: <cause>` for `albumByID` (`albumByID <id>: no such album`
when the cause is `sql.ErrNoRows`), `updateAlbum id <id>: <cause>` for
`updateAlbum`, `deleteAlbum id <id>: <cause>` for `deleteAlbum`,
`addAlbum: <cause>` for `addAlbum` (the name of the operation and the cause,
nothing of the album being written) and `albums: <cause>` for `getAllAlbums`
(which has no input). Every error returned by `albumsByArtist`, `albumByID`,
`updateAlbum` or `deleteAlbum` carries the name of the operation and its key
input (the artist name as the verb `%q` writes it, or the id); every error
returned by `addAlbum` carries its name; every error returned by
`getAllAlbums` carries the label `albums: `. -/
theorem error_context {σ : Type} (db : Env σ) (s : σ) (name : String) (id : Int) (alb : Album)
    (cause : GoError) :
    (((db.Query s "SELECT * FROM album WHERE artist = ?" [Value.str name]).1 = .error cause ∨
      (∃ (rows : Rows) (cols : List Columns) (left : Columns) (rest : List ScanResult),
        (db.Query s "SELECT * FROM album WHERE artist = ?" [Value.str name]).1 = .ok rows ∧
        rows.scans = cols.map ScanResult.ok ++ ScanResult.fail cause left :: rest) ∨
      (∃ (rows : Rows) (cols : List Columns),
        (db.Query s "SELECT * FROM album WHERE artist = ?" [Value.str name]).1 = .ok rows ∧
        rows.scans = cols.map ScanResult.ok ∧ rows.err = some cause)) →
      (albumsByArtist db s name).1.2
        = some (Errorf ("albumsByArtist " ++ db.Quote name ++ ": " ++ cause.Error))) ∧
    ((∃ left : Columns,
        (db.QueryRow s "SELECT * FROM album WHERE id = ?" [Value.int id]).1
          = .fail cause left) →
      (albumByID db s id).1.2
        = some (if cause = GoError.ErrNoRows then
            Errorf ("albumByID " ++ fmtD id ++ ": no such album")
          else Errorf ("albumByID " ++ fmtD id ++ ": " ++ cause.Error))) ∧
    (((db.Exec s "UPDATE album SET title = ?, artist = ?, price = ? WHERE id = ?"
          [Value.str alb.Title, Value.str alb.Artist, Value.float alb.Price, Value.int id]).1
          = .error cause ∨
      (∃ res : Result, (db.Exec s "UPDATE album SET title = ?, artist = ?, price = ? WHERE id = ?"
          [Value.str alb.Title, Value.str alb.Artist, Value.float alb.Price, Value.int id]).1
          = .ok res ∧ res.RowsAffected = .error cause)) →
      (updateAlbum db s alb id).1.2
        = some (Errorf ("updateAlbum id " ++ fmtD id ++ ": " ++ cause.Error))) ∧
    (((db.Exec s "DELETE FROM album WHERE id = ?" [Value.int id]).1 = .error cause ∨
      (∃ res : Result, (db.Exec s "DELETE FROM album WHERE id = ?" [Value.int id]).1 = .ok res ∧
          res.RowsAffected = .error cause)) →
      (deleteAlbum db s id).1.2
        = some (Errorf ("deleteAlbum id " ++ fmtD id ++ ": " ++ cause.Error))) ∧
    (((db.Exec s "INSERT INTO album (title, artist, price) VALUES (?, ?, ?)"
          [Value.str alb.Title, Value.str alb.Artist, Value.float alb.Price]).1 = .error cause ∨
      (∃ res : Result, (db.Exec s "INSERT INTO album (title, artist, price) VALUES (?, ?, ?)"
          [Value.str alb.Title, Value.str alb.Artist, Value.float alb.Price]).1 = .ok res ∧
          res.LastInsertId = .error cause)) →
      (addAlbum db s alb).1.2 = some (Errorf ("addAlbum: " ++ cause.Error))) ∧
    (((db.Query s "SELECT * FROM album" []).1 = .error cause ∨
      (∃ (rows : Rows) (cols : List Columns) (left : Columns) (rest : List ScanResult),
        (db.Query s "SELECT * FROM album" []).1 = .ok rows ∧
        rows.scans = cols.map ScanResult.ok ++ ScanResult.fail cause left :: rest) ∨
      (∃ (rows : Rows) (cols : List Columns),
        (db.Query s "SELECT * FROM album" []).1 = .ok rows ∧
        rows.scans = cols.map ScanResult.ok ∧ rows.err = some cause)) →
      (getAllAlbums db s).1.2 = some (Errorf ("albums: " ++ cause.Error))) ∧
    (∀ e, (albumsByArtist db s name).1.2 = some e →
      carries e "albumsByArtist" ∧ carries e (db.Quote name)) ∧
    (∀ e, (albumByID db s id).1.2 = some e → carries e "albumByID" ∧ carries e (fmtD id)) ∧
    (∀ e, (updateAlbum db s alb id).1.2 = some e →
      carries e "updateAlbum" ∧ carries e (fmtD id)) ∧
    (∀ e, (deleteAlbum db s id).1.2 = some e → carries e "deleteAlbum" ∧ carries e (fmtD id)) ∧
    (∀ e, (addAlbum db s alb).1.2 = some e → carries e "addAlbum") ∧
    (∀ e, (getAllAlbums db s).1.2 = some e → carries e "albums: ") := by
  refine ⟨albumsByArtist_on_failure db s name cause, ?_, updateAlbum_on_failure db s alb id cause,
    deleteAlbum_on_failure db s id cause, addAlbum_on_failure db s alb cause,
    getAllAlbums_on_failure db s cause, ?_, ?_, ?_, ?_, ?_, ?_⟩
  · rintro ⟨left, h⟩
    exact albumByID_on_failure db s id cause left h
  · intro e h
    obtain ⟨c, rfl⟩ := albumsByArtist_error_shape db s name e h
    exact ⟨carries_start_of _ _ _ (carries_start_of _ _ _ (carries_start_of _ _ _ (by decide))),
      carries_start_of _ _ _ (carries_start_of _ _ _ (carries_end _ _))⟩
  · intro e h
    rcases albumByID_error_shape db s id e h with rfl | ⟨c, rfl⟩
    · exact ⟨carries_start_of _ _ _ (carries_start_of _ _ _ (by decide)), carries_mid _ _ _⟩
    · exact ⟨carries_start_of _ _ _ (carries_start_of _ _ _ (carries_start_of _ _ _ (by decide))),
        carries_start_of _ _ _ (carries_mid _ _ _)⟩
  · intro e h
    obtain ⟨c, rfl⟩ := updateAlbum_error_shape db s alb id e h
    exact ⟨carries_start_of _ _ _ (carries_start_of _ _ _ (carries_start_of _ _ _ (by decide))),
      carries_start_of _ _ _ (carries_mid _ _ _)⟩
  · intro e h
    obtain ⟨c, rfl⟩ := deleteAlbum_error_shape db s id e h
    exact ⟨carries_start_of _ _ _ (carries_start_of _ _ _ (carries_start_of _ _ _ (by decide))),
      carries_start_of _ _ _ (carries_mid _ _ _)⟩
  · intro e h
    obtain ⟨c, rfl⟩ := addAlbum_error_shape db s alb e h
    exact carries_start_of _ _ _ (by decide)
  · intro e h
    obtain ⟨c, rfl⟩ := getAllAlbums_error_shape db s e h
    exact carries_start_of _ _ _ (by decide)

/-- C10, amended, at a concrete input: the update of the album with id 5
fails with `connection refused`, and `updateAlbum` returns the error
`updateAlbum id 5: connection refused`. -/
theorem error_context_witness :
    (updateAlbum (constEnv (.ok ⟨[], none⟩) (.ok Columns.zero)
        (.error (GoError.other "connection refused"))) () bettyCarter 5).1.2
      = some (GoError.other "updateAlbum id 5: connection refused") :=
  (error_context (constEnv (.ok ⟨[], none⟩) (.ok Columns.zero)
      (.error (GoError.other "connection refused"))) () "Betty Carter" 5 bettyCarter
    (GoError.other "connection refused")).2.2.1 (Or.inl rfl)

/-! ## The operations on the reference table -/

theorem addAlbum_table (quote : String → String) (t : Table) (alb : Album) :
    addAlbum (tableEnv quote) t alb
      = ((t.nextID, none), t.insert alb.Title alb.Artist alb.Price) := rfl

theorem updateAlbum_table (quote : String → String) (t : Table) (alb : Album) (id : Int) :
    updateAlbum (tableEnv quote) t alb id
      = ((t.updateCount alb.Title alb.Artist alb.Price id, none),
          t.update alb.Title alb.Artist alb.Price id) := rfl

theorem deleteAlbum_table (quote : String → String) (t : Table) (id : Int) :
    deleteAlbum (tableEnv quote) t id = ((t.deleteCount id, none), t.delete id) := rfl

theorem albumByID_table_none (quote : String → String) (t : Table) (id : Int)
    (h : t.rows.find? (fun r => decide (r.id = id)) = none) :
    albumByID (tableEnv quote) t id
      = ((scanInto Columns.zero, some (Errorf ("albumByID " ++ fmtD id ++ ": no such album"))), t) := by
  unfold albumByID tableEnv
  simp [h]

theorem albumByID_table_some (quote : String → String) (t : Table) (id : Int) (r : Record)
    (h : t.rows.find? (fun r => decide (r.id = id)) = some r) :
    albumByID (tableEnv quote) t id = ((scanInto r.columns, none), t) := by
  unfold albumByID tableEnv
  simp [h]

theorem getAllAlbums_table (quote : String → String) (t : Table) :
    getAllAlbums (tableEnv quote) t = ((t.rows.map (fun r => scanInto r.columns), none), t) := by
  unfold getAllAlbums tableEnv
  have h : scanRows (fun err => Errorf ("albums: " ++ err.Error))
      (t.rows.map (fun r => ScanResult.ok r.columns)) []
      = .ok (t.rows.map (fun r => scanInto r.columns)) := by
    have h0 := scanRows_ok (fun err => Errorf ("albums: " ++ err.Error))
      (t.rows.map Record.columns) []
    simpa [List.map_map, Function.comp_def] using h0
  simp [h]

/-! ## Insert, then find -/

/-- C2: on the reference table, for every album and every state of the table,
if `addAlbum` returns the id `N` and no error, then `albumByID N` called next
returns no error and the album with ID `N` and the title, artist and price of
the inserted album. -/
theorem add_then_find (quote : String → String) (t : Table) (alb : Album) (N : Int)
    (h : (addAlbum (tableEnv quote) t alb).1 = (N, none)) :
    (albumByID (tableEnv quote) (addAlbum (tableEnv quote) t alb).2 N).1
      = ({ ID := N, Title := alb.Title, Artist := alb.Artist, Price := alb.Price }, none) := by
  rw [addAlbum_table] at h ⊢
  have hN : t.nextID = N := by simpa using h
  subst hN
  have hold : t.rows.find? (fun r => decide (r.id = t.nextID)) = none := by
    rw [List.find?_eq_none]
    intro r hr
    have := t.fresh r hr
    simp only [decide_eq_true_eq]
    omega
  have hfind : (t.insert alb.Title alb.Artist alb.Price).rows.find?
      (fun r => decide (r.id = t.nextID)) = some ⟨t.nextID, alb.Title, alb.Artist, alb.Price⟩ := by
    simp [Table.insert, List.find?_append, hold]
  rw [albumByID_table_some quote _ _ _ hfind]
  rfl

/-- C2 at a concrete input: the album of the program added to the sample
table gets the id 5 and is found under it. -/
theorem add_then_find_witness :
    (albumByID (tableEnv quotePlain) (addAlbum (tableEnv quotePlain) sampleTable bettyCarter).2 5).1
      = ({ ID := 5, Title := "The Modern Sound of Betty Carter", Artist := "Betty Carter",
           Price := ⟨1112012227⟩ }, none) :=
  add_then_find quotePlain sampleTable bettyCarter 5 rfl

/-! ## Update and delete of an absent id -/

/-- C4: on the reference table, for every id that matches no row and every
album value, `updateAlbum` and `deleteAlbum` each return the count 0 and a nil
error, and leave the table as it was. -/
theorem update_delete_absent (quote : String → String) (t : Table) (alb : Album) (id : Int)
    (h : ∀ r ∈ t.rows, r.id ≠ id) :
    (updateAlbum (tableEnv quote) t alb id).1 = (0, none) ∧
    (updateAlbum (tableEnv quote) t alb id).2.rows = t.rows ∧
    (updateAlbum (tableEnv quote) t alb id).2.nextID = t.nextID ∧
    (deleteAlbum (tableEnv quote) t id).1 = (0, none) ∧
    (deleteAlbum (tableEnv quote) t id).2.rows = t.rows ∧
    (deleteAlbum (tableEnv quote) t id).2.nextID = t.nextID := by
  rw [updateAlbum_table, deleteAlbum_table]
  have hu : t.updateCount alb.Title alb.Artist alb.Price id = 0 := by
    unfold Table.updateCount
    have : t.rows.filter (fun r => decide (r.id = id)
        && !decide (r.set alb.Title alb.Artist alb.Price = r)) = [] := by
      rw [List.filter_eq_nil_iff]
      intro r hr
      simp [h r hr]
    rw [this]
    rfl
  have hd : t.deleteCount id = 0 := by
    unfold Table.deleteCount
    have : t.rows.filter (fun r => decide (r.id = id)) = [] := by
      rw [List.filter_eq_nil_iff]
      intro r hr
      simp [h r hr]
    rw [this]
    rfl
  refine ⟨by rw [hu], ?_, rfl, by rw [hd], ?_, rfl⟩
  · show t.rows.map (fun r => if r.id = id then r.set alb.Title alb.Artist alb.Price else r) = t.rows
    conv_rhs => rw [← List.map_id t.rows]
    apply List.map_congr_left
    intro r hr
    simp [h r hr]
  · show t.rows.filter (fun r => !decide (r.id = id)) = t.rows
    rw [List.filter_eq_self]
    intro r hr
    simp [h r hr]

/-- C4 at a concrete input: the id 9 on the sample table. -/
theorem update_delete_absent_witness :
    (updateAlbum (tableEnv quotePlain) sampleTable bettyCarter 9).1 = (0, none) ∧
    (deleteAlbum (tableEnv quotePlain) sampleTable 9).1 = (0, none) :=
  ⟨(update_delete_absent quotePlain sampleTable bettyCarter 9 (by decide)).1,
   (update_delete_absent quotePlain sampleTable bettyCarter 9 (by decide)).2.2.2.1⟩

/-! ## Delete, then find -/

/-- C5: on the reference table, for every id `X` and every state of the
table, if `deleteAlbum X` returns the count 1 and no error, then `albumByID X`
called next returns the error `albumByID <X>: no such album`, with the zero
album. -/
theorem delete_then_find (quote : String → String) (t : Table) (X : Int)
    (_h : (deleteAlbum (tableEnv quote) t X).1 = (1, none)) :
    (albumByID (tableEnv quote) (deleteAlbum (tableEnv quote) t X).2 X).1
      = (scanInto Columns.zero, some (Errorf ("albumByID " ++ fmtD X ++ ": no such album"))) := by
  rw [deleteAlbum_table]
  have hnone : (t.delete X).rows.find? (fun r => decide (r.id = X)) = none := by
    rw [List.find?_eq_none]
    intro r hr
    have := (List.mem_filter.mp hr).2
    simpa using this
  rw [albumByID_table_none quote _ _ hnone]

/-- C5 at a concrete input: the row 3 of the sample table. -/
theorem delete_then_find_witness :
    (deleteAlbum (tableEnv quotePlain) sampleTable 3).1 = (1, none) ∧
    (albumByID (tableEnv quotePlain) (deleteAlbum (tableEnv quotePlain) sampleTable 3).2 3).1
      = (scanInto Columns.zero, some (GoError.other "albumByID 3: no such album")) :=
  ⟨rfl, delete_then_find quotePlain sampleTable 3 rfl⟩

/-! ## An artist without rows -/

/-- C3, at a concrete input: the claim as stated fails. On the sample
table no row has the artist `Betty Carter`, and the query itself succeeds,
with a result set of zero rows; the connection is lost before the end of the
result set is read, `rows.Err()` reports it, and `albumsByArtist` returns an
error instead of an empty sequence with a nil error. -/
theorem albumsByArtist_no_rows_iteration_error :
    (∀ r ∈ sampleTable.rows, r.artist ≠ "Betty Carter") ∧
    ((lostAfterRows (tableEnv quotePlain) (GoError.other "invalid connection")).Query sampleTable
        "SELECT * FROM album WHERE artist = ?" [Value.str "Betty Carter"]).1
      = .ok ⟨[], some (GoError.other "invalid connection")⟩ ∧
    (albumsByArtist (lostAfterRows (tableEnv quotePlain) (GoError.other "invalid connection"))
        sampleTable "Betty Carter").1
      = ([], some (Errorf ("albumsByArtist " ++ quotePlain "Betty Carter"
          ++ ": invalid connection"))) :=
  ⟨by decide, rfl, rfl⟩

/-- C3, amended: for every artist name, when the query succeeds, its result
set has zero rows and the iteration over it ends without an error,
`albumsByArtist` returns an empty sequence of albums (length 0) together with
a nil error. -/
theorem albumsByArtist_no_rows {σ : Type} (db : Env σ) (s : σ) (name : String)
    (h : (db.Query s "SELECT * FROM album WHERE artist = ?" [Value.str name]).1
      = .ok ⟨[], none⟩) :
    (albumsByArtist db s name).1 = ([], none) ∧ (albumsByArtist db s name).1.1.length = 0 := by
  have e : (albumsByArtist db s name).1 = ([], none) := by
    unfold albumsByArtist
    generalize db.Query s "SELECT * FROM album WHERE artist = ?" [Value.str name] = q at h
    rcases q with ⟨r, s1⟩
    simp only at h
    subst h
    rfl
  exact ⟨e, by rw [e]; rfl⟩

/-- C3, amended, at a concrete input: the artist `Betty Carter`, who has no
row in the sample table. -/
theorem albumsByArtist_no_rows_witness :
    (∀ r ∈ sampleTable.rows, r.artist ≠ "Betty Carter") ∧
    (albumsByArtist (tableEnv quotePlain) sampleTable "Betty Carter").1 = ([], none) :=
  ⟨by decide, (albumsByArtist_no_rows (tableEnv quotePlain) sampleTable "Betty Carter" rfl).1⟩

/-! ## getAllAlbums: one album for each row -/

/-- C8, at a concrete input: the claim as stated fails. On the sample
table the query succeeds and the scan of each of the four rows succeeds;
the connection is lost before the end of the result set is read, `rows.Err()`
reports it, and `getAllAlbums` returns no album and an error. -/
theorem getAllAlbums_iteration_error :
    ((lostAfterRows (tableEnv quotePlain) (GoError.other "unexpected EOF")).Query sampleTable
        "SELECT * FROM album" []).1
      = .ok ⟨sampleTable.rows.map (fun r => ScanResult.ok r.columns),
          some (GoError.other "unexpected EOF")⟩ ∧
    sampleTable.rows.length = 4 ∧
    (getAllAlbums (lostAfterRows (tableEnv quotePlain) (GoError.other "unexpected EOF"))
        sampleTable).1
      = ([], some (GoError.other "albums: unexpected EOF")) :=
  ⟨rfl, rfl, rfl⟩

/-- C8, amended: when the query and every row scan succeed and the iteration
over the rows ends without an error, `getAllAlbums` returns exactly one album
for each row delivered, in the order of delivery, with the columns read by
position as id, title, artist, price. On the reference table the result has
one album for each row of the table at the time of the call, and a call after
an insert, a delete or an update shows the write. -/
theorem getAllAlbums_all_rows {σ : Type} (db : Env σ) (s : σ) (rows : Rows)
    (cols : List Columns) (quote : String → String) (t : Table) (alb : Album) (id : Int)
    (hq : (db.Query s "SELECT * FROM album" []).1 = .ok rows)
    (hs : rows.scans = cols.map ScanResult.ok) (he : rows.err = none) :
    (getAllAlbums db s).1
      = (cols.map (fun c => { ID := c.c0, Title := c.c1, Artist := c.c2, Price := c.c3 }), none) ∧
    (getAllAlbums db s).1.1.length = cols.length ∧
    (getAllAlbums (tableEnv quote) t).1
      = (t.rows.map (fun r =>
          { ID := r.id, Title := r.title, Artist := r.artist, Price := r.price }), none) ∧
    (getAllAlbums (tableEnv quote) t).1.1.length = t.rows.length ∧
    (getAllAlbums (tableEnv quote) (addAlbum (tableEnv quote) t alb).2).1.1
      = (getAllAlbums (tableEnv quote) t).1.1
          ++ [{ ID := t.nextID, Title := alb.Title, Artist := alb.Artist, Price := alb.Price }] ∧
    (getAllAlbums (tableEnv quote) (deleteAlbum (tableEnv quote) t id).2).1.1
      = (getAllAlbums (tableEnv quote) t).1.1.filter (fun a => !decide (a.ID = id)) ∧
    (getAllAlbums (tableEnv quote) (updateAlbum (tableEnv quote) t alb id).2).1.1
      = (getAllAlbums (tableEnv quote) t).1.1.map (fun a =>
          if a.ID = id then
            { ID := a.ID, Title := alb.Title, Artist := alb.Artist, Price := alb.Price }
          else a) := by
  have e : (getAllAlbums db s).1 = (cols.map scanInto, none) := by
    unfold getAllAlbums
    generalize db.Query s "SELECT * FROM album" [] = q at hq
    rcases q with ⟨r, s1⟩
    simp only at hq
    subst hq
    simp only [hs, scanRows_ok, he, List.nil_append]
  refine ⟨e, by rw [e]; simp, ?_, ?_, ?_, ?_, ?_⟩
  · rw [getAllAlbums_table]
    rfl
  · rw [getAllAlbums_table]
    simp
  · rw [addAlbum_table, getAllAlbums_table, getAllAlbums_table]
    simp [Table.insert, scanInto, Record.columns]
  · rw [deleteAlbum_table, getAllAlbums_table, getAllAlbums_table]
    simp only [Table.delete, List.filter_map]
    rfl
  · rw [updateAlbum_table, getAllAlbums_table, getAllAlbums_table]
    simp only [Table.update, List.map_map]
    apply List.map_congr_left
    intro r _
    by_cases hr : r.id = id
    · simp [hr, scanInto, Record.columns, Record.set]
    · simp [hr, scanInto, Record.columns]

/-- C8, amended, at a concrete input: the sample table, read in
full. -/
theorem getAllAlbums_all_rows_witness :
    (getAllAlbums (tableEnv quotePlain) sampleTable).1
      = ([{ ID := 1, Title := "Blue Train", Artist := "John Coltrane", Price := ⟨1113847235⟩ },
          { ID := 2, Title := "Giant Steps", Artist := "John Coltrane", Price := ⟨1115682243⟩ },
          { ID := 3, Title := "Jeru", Artist := "Gerry Mulligan", Price := ⟨1099950981⟩ },
          { ID := 4, Title := "Sarah Vaughan", Artist := "Sarah Vaughan", Price := ⟨1108077445⟩ }],
         none) :=
  (getAllAlbums_all_rows (tableEnv quotePlain) sampleTable
    ⟨sampleTable.rows.map (fun (r : Record) => ScanResult.ok r.columns), none⟩
    (sampleTable.rows.map Record.columns) quotePlain sampleTable bettyCarter 3
    rfl rfl rfl).1

end AlbumStore
